import Mathlib

/-!
Verification development for the nanonext package-level registration file
(`src/init.c`) and the asynchronous completion / wait-bridging layer its
specification describes.

The registration tables (`CallEntries`, `callMethods`, `externalMethods`),
the symbol preservation/release routines (`PreserveObjects`,
`ReleaseObjects`) and the two `R_init_nanonext` entry points are embedded
directly from `src/init.c`.  The completion-signal / operation semantics
are modelled from the specification, since only their registrations (not
their bodies) appear in the source file.
-/

namespace Nanonext

/-- One entry of an `R_CallMethodDef` table: the registration name string,
the name of the C function the entry points to, and the declared arity. -/
structure CallEntry where
  regName : String
  fnName : String
  arity : Int
deriving DecidableEq, Repr

/-- The first registration table in `src/init.c` (lines 9-12), used by the
first definition of `R_init_nanonext`: a single entry before the
terminating null entry. -/
def CallEntries : List CallEntry :=
  [⟨"rnng_http_echo_server", "rnng_http_echo_server", 1⟩]

set_option maxHeartbeats 1000000 in
/-- The `callMethods` table of `src/init.c` (lines 119-200): every entry
before the terminating null entry, transcribed in source order. -/
def callMethods : List CallEntry :=
  [ ⟨"rnng_advance_rng_state", "rnng_advance_rng_state", 0⟩,
    ⟨"rnng_aio_call", "rnng_aio_call", 1⟩,
    ⟨"rnng_aio_collect", "rnng_aio_collect", 1⟩,
    ⟨"rnng_aio_collect_safe", "rnng_aio_collect_safe", 1⟩,
    ⟨"rnng_aio_get_msg", "rnng_aio_get_msg", 1⟩,
    ⟨"rnng_aio_http_data", "rnng_aio_http_data", 1⟩,
    ⟨"rnng_aio_http_headers", "rnng_aio_http_headers", 1⟩,
    ⟨"rnng_aio_http_status", "rnng_aio_http_status", 1⟩,
    ⟨"rnng_aio_result", "rnng_aio_result", 1⟩,
    ⟨"rnng_aio_stop", "rnng_aio_stop", 1⟩,
    ⟨"rnng_clock", "rnng_clock", 0⟩,
    ⟨"rnng_close", "rnng_close", 1⟩,
    ⟨"rnng_ctx_close", "rnng_ctx_close", 1⟩,
    ⟨"rnng_ctx_create", "rnng_ctx_create", 1⟩,
    ⟨"rnng_ctx_open", "rnng_ctx_open", 1⟩,
    ⟨"rnng_cv_alloc", "rnng_cv_alloc", 0⟩,
    ⟨"rnng_cv_reset", "rnng_cv_reset", 1⟩,
    ⟨"rnng_cv_signal", "rnng_cv_signal", 1⟩,
    ⟨"rnng_cv_until", "rnng_cv_until", 2⟩,
    ⟨"rnng_cv_until_safe", "rnng_cv_until_safe", 2⟩,
    ⟨"rnng_cv_value", "rnng_cv_value", 1⟩,
    ⟨"rnng_cv_wait", "rnng_cv_wait", 1⟩,
    ⟨"rnng_cv_wait_safe", "rnng_cv_wait_safe", 1⟩,
    ⟨"rnng_dial", "rnng_dial", 5⟩,
    ⟨"rnng_dialer_close", "rnng_dialer_close", 1⟩,
    ⟨"rnng_dialer_start", "rnng_dialer_start", 2⟩,
    ⟨"rnng_eval_safe", "rnng_eval_safe", 1⟩,
    ⟨"rnng_fini", "rnng_fini", 0⟩,
    ⟨"rnng_fini_priors", "rnng_fini_priors", 0⟩,
    ⟨"rnng_get_opt", "rnng_get_opt", 2⟩,
    ⟨"rnng_header_read", "rnng_header_read", 1⟩,
    ⟨"rnng_header_set", "rnng_header_set", 1⟩,
    ⟨"rnng_interrupt_switch", "rnng_interrupt_switch", 1⟩,
    ⟨"rnng_ip_addr", "rnng_ip_addr", 0⟩,
    ⟨"rnng_is_error_value", "rnng_is_error_value", 1⟩,
    ⟨"rnng_is_nul_byte", "rnng_is_nul_byte", 1⟩,
    ⟨"rnng_listen", "rnng_listen", 5⟩,
    ⟨"rnng_listener_close", "rnng_listener_close", 1⟩,
    ⟨"rnng_listener_start", "rnng_listener_start", 1⟩,
    ⟨"rnng_marker_read", "rnng_marker_read", 1⟩,
    ⟨"rnng_marker_set", "rnng_marker_set", 1⟩,
    ⟨"rnng_messenger", "rnng_messenger", 1⟩,
    ⟨"rnng_monitor_create", "rnng_monitor_create", 2⟩,
    ⟨"rnng_monitor_read", "rnng_monitor_read", 1⟩,
    ⟨"rnng_ncurl", "rnng_ncurl", 9⟩,
    ⟨"rnng_ncurl_aio", "rnng_ncurl_aio", 9⟩,
    ⟨"rnng_ncurl_session", "rnng_ncurl_session", 8⟩,
    ⟨"rnng_ncurl_session_close", "rnng_ncurl_session_close", 1⟩,
    ⟨"rnng_ncurl_transact", "rnng_ncurl_transact", 1⟩,
    ⟨"rnng_pipe_notify", "rnng_pipe_notify", 5⟩,
    ⟨"rnng_protocol_open", "rnng_protocol_open", 6⟩,
    ⟨"rnng_random", "rnng_random", 2⟩,
    ⟨"rnng_read_stdin", "rnng_read_stdin", 1⟩,
    ⟨"rnng_reap", "rnng_reap", 1⟩,
    ⟨"rnng_recv", "rnng_recv", 4⟩,
    ⟨"rnng_recv_aio", "rnng_recv_aio", 6⟩,
    ⟨"rnng_request", "rnng_request", 8⟩,
    ⟨"rnng_send", "rnng_send", 5⟩,
    ⟨"rnng_send_aio", "rnng_send_aio", 6⟩,
    ⟨"rnng_serial_config", "rnng_serial_config", 3⟩,
    ⟨"rnng_set_opt", "rnng_set_opt", 3⟩,
    ⟨"rnng_set_promise_context", "rnng_set_promise_context", 2⟩,
    ⟨"rnng_signal_thread_create", "rnng_signal_thread_create", 2⟩,
    ⟨"rnng_sleep", "rnng_sleep", 1⟩,
    ⟨"rnng_stats_get", "rnng_stats_get", 2⟩,
    ⟨"rnng_status_code", "rnng_status_code", 1⟩,
    ⟨"rnng_stream_close", "rnng_stream_close", 1⟩,
    ⟨"rnng_stream_open", "rnng_stream_open", 4⟩,
    ⟨"rnng_strerror", "rnng_strerror", 1⟩,
    ⟨"rnng_subscribe", "rnng_subscribe", 3⟩,
    ⟨"rnng_tls_config", "rnng_tls_config", 4⟩,
    ⟨"rnng_traverse_precious", "rnng_traverse_precious", 0⟩,
    ⟨"rnng_unresolved", "rnng_unresolved", 1⟩,
    ⟨"rnng_unresolved2", "rnng_unresolved2", 1⟩,
    ⟨"rnng_url_parse", "rnng_url_parse", 1⟩,
    ⟨"rnng_version", "rnng_version", 0⟩,
    ⟨"rnng_wait_thread_create", "rnng_wait_thread_create", 1⟩,
    ⟨"rnng_write_cert", "rnng_write_cert", 2⟩,
    ⟨"rnng_write_stdout", "rnng_write_stdout", 1⟩ ]

/-- The `externalMethods` table of `src/init.c` (lines 202-205); the
declared arity `-1` marks a variadic external routine. -/
def externalMethods : List CallEntry :=
  [⟨"rnng_messenger_thread_create", "rnng_messenger_thread_create", -1⟩]

/-- The routine tables registered by the two successive definitions of
`R_init_nanonext` in `src/init.c`: the first definition (lines 14-17)
registers `CallEntries`; the second (lines 207-214) registers
`callMethods`.  The file contains both definitions. -/
def R_init_nanonext_tables : List (List CallEntry) :=
  [CallEntries, callMethods]

/-- Returns `true` iff the table has an entry with the given registration
name and arity. -/
def hasEntry (tbl : List CallEntry) (n : String) (a : Int) : Bool :=
  tbl.any fun e => e.regName = n && e.arity = a

/-- The declared arity of the entry registered under name `n`, if any. -/
def lookupArity (tbl : List CallEntry) (n : String) : Option Int :=
  (tbl.find? fun e => e.regName = n).map CallEntry.arity

/-- Strict lexicographic order on character code points, the order
`strcmp` induces on ASCII strings. -/
def charsLt : List Char → List Char → Bool
  | [], [] => false
  | [], _ :: _ => true
  | _ :: _, [] => false
  | a :: as, b :: bs =>
    a.toNat < b.toNat || (a.toNat = b.toNat && charsLt as bs)

/-- Strict `strcmp`-style order on strings. -/
def strLt (a b : String) : Bool := charsLt a.toList b.toList

/-- Returns `true` iff the list of strings is strictly increasing in
`strcmp` order. -/
def strictlySorted : List String → Bool
  | [] => true
  | [_] => true
  | a :: b :: rest => strLt a b && strictlySorted (b :: rest)

/-- The objects preserved by `PreserveObjects` (`src/init.c` lines
83-102), in the order of the `R_PreserveObject` calls. -/
def preserveOrder : List String :=
  [ "nano_aioFuncMsg", "nano_aioFuncRes", "nano_aioNFuncs", "nano_error",
    "nano_precious", "nano_recvAio", "nano_reqAio", "nano_sendAio",
    "nano_success", "nano_unresolved" ]

/-- The objects released by `ReleaseObjects` (`src/init.c` lines
105-116), in the order of the `R_ReleaseObject` calls. -/
def releaseOrder : List String :=
  [ "nano_unresolved", "nano_success", "nano_sendAio", "nano_reqAio",
    "nano_recvAio", "nano_precious", "nano_error", "nano_aioNFuncs",
    "nano_aioFuncRes", "nano_aioFuncMsg" ]

/-- Preserving pushes each object onto the process-wide preserved stack,
in call order, on top of whatever was already preserved. -/
def preserveStack (base : List String) : List String :=
  preserveOrder.foldl (fun acc x => x :: acc) base

/-- Releasing pops the named objects one by one; it returns the remaining
stack when every release matches the current top, and `none` otherwise. -/
def releaseStack : List String → List String → Option (List String)
  | [], objs => some objs
  | _ :: _, [] => none
  | r :: rs, o :: os => if r = o then releaseStack rs os else none

/-!
The completion-signal and operation semantics below are modelled from the
specification: the bodies of the `rnng_cv_*`, `rnng_aio_*` and bridge
thread routines are not part of the registration source file, only their
registrations are.
-/

/-- Modelled from the spec: the two kinds of events applied to a
CompletionSignal's monotonic counter — `signal()` atomically increments
it, `wait()` only reads it. -/
inductive CvEvent
  | signal
  | wait
deriving DecidableEq, Repr

/-- Modelled from the spec: the effect of one event on the counter. -/
def cvStep : Nat → CvEvent → Nat
  | c, .signal => c + 1
  | c, .wait => c

/-- Modelled from the spec: the counter after a sequence of events. -/
def cvRun (c : Nat) : List CvEvent → Nat
  | [] => c
  | e :: es => cvRun (cvStep c e) es

/-- Modelled from the spec: a `wait()` call blocks iff the counter is
unchanged from the value it sampled at entry; if the counter has already
advanced past the sample it returns immediately. -/
def waitBlocks (sample current : Nat) : Bool := current = sample

/-- Modelled from the spec: the final result stored on a completed
Operation, distinguishing `Success(payload)` from `Error(code)` as a
structured value. -/
inductive OpResult
  | success (payload : Nat)
  | error (code : Nat)
deriving DecidableEq, Repr

/-- Modelled from the spec: the lifecycle states of an Operation,
Created, then Pending once issued, then Done with its result. -/
inductive OpState
  | created
  | pending
  | done (r : OpResult)
deriving DecidableEq, Repr

/-- Modelled from the spec: the events that drive an Operation — issuing
it to the native engine, a `stop()` cancellation request, and the native
completion callback carrying the result. -/
inductive OpEvent
  | issue
  | stopReq
  | complete (r : OpResult)
deriving DecidableEq, Repr

/-- Returns `true` iff the state is Done. -/
def OpState.isDone : OpState → Bool
  | .done _ => true
  | _ => false

/-- Modelled from the spec: the one-way Operation transition function.
Issuing a created Operation makes it Pending; the native completion
callback moves Pending to Done; `stop()` is an advisory request that does
not itself change the state; once Done, every event leaves the state
unchanged (idempotent). -/
def opStep : OpState → OpEvent → OpState
  | .created, .issue => .pending
  | .pending, .complete r => .done r
  | s, _ => s

/-- Modelled from the spec: the state after a sequence of events. -/
def opRun (s : OpState) : List OpEvent → OpState
  | [] => s
  | e :: es => opRun (opStep s e) es

/-- Counts the Pending-to-Done (more generally, not-Done to Done)
transitions performed along a sequence of events. -/
def doneTransitions (s : OpState) : List OpEvent → Nat
  | [] => 0
  | e :: es =>
    (if !s.isDone && (opStep s e).isDone then 1 else 0) +
      doneTransitions (opStep s e) es

/-- Modelled from the spec: `collect()` on a Done Operation returns the
stored result; on a not-yet-Done Operation it has no result to return. -/
def collect : OpState → Option OpResult
  | .done r => some r
  | _ => none

/-- Modelled from the spec: the three distinct outcomes of a timed wait. -/
inductive WaitOutcome
  | completed
  | timedOut
  | interrupted
deriving DecidableEq, Repr

/-- Modelled from the spec: `wait_until(deadline)` on a signal reports
Completed iff the counter observed by the deadline has advanced past the
sample taken at entry, and TimedOut otherwise. -/
def cvWaitUntil (sample counterAtDeadline : Nat) : WaitOutcome :=
  if sample < counterAtDeadline then .completed else .timedOut

/-- Modelled from the spec: the interruptible timed wait additionally
reports Interrupted when a host interrupt request arrives mid-wait. -/
def cvWaitUntilSafe (interruptReq : Bool) (sample counterAtDeadline : Nat) :
    WaitOutcome :=
  if interruptReq then .interrupted else cvWaitUntil sample counterAtDeadline

/-- Modelled from the spec: `wait_until(deadline)` called at time `now`
on an Operation.  A deadline already in the past returns TimedOut at once
without blocking, reading the target state as it stands; otherwise the
wait blocks until the deadline and reports Completed iff the Operation is
Done by then.  The wait never writes the target: the state it returns is
the state it observed. -/
def opWaitUntil (now deadline : Int) (stNow stAtDeadline : OpState) :
    WaitOutcome × OpState :=
  if deadline ≤ now then (.timedOut, stNow)
  else
    match stAtDeadline with
    | .done r => (.completed, .done r)
    | st => (.timedOut, st)

/-- Modelled from the spec: a bridge thread is either still waiting on
its target (holding the counter value it sampled when spawned) or has
delivered its single result and terminated. -/
inductive BridgeState
  | waiting (sample : Nat)
  | terminated
deriving DecidableEq, Repr

/-- Modelled from the spec: one step of a bridge thread, consuming one
observation of the target counter; it delivers (count 1) exactly when it
is still waiting and the counter has advanced past its sample, and then
terminates; a terminated thread never delivers again. -/
def bridgeStep : BridgeState → Nat → BridgeState × Nat
  | .waiting s, c => if s < c then (.terminated, 1) else (.waiting s, 0)
  | .terminated, _ => (.terminated, 0)

/-- Total number of deliveries a bridge thread performs over a sequence
of counter observations. -/
def bridgeDeliveries (b : BridgeState) : List Nat → Nat
  | [] => 0
  | c :: cs => (bridgeStep b c).2 + bridgeDeliveries (bridgeStep b c).1 cs

/-! Helper lemmas. -/

/-- The counter never decreases along any event sequence. -/
lemma cvRun_ge (es : List CvEvent) : ∀ c, c ≤ cvRun c es := by
  induction es with
  | nil => intro c; exact le_refl c
  | cons e es ih =>
    intro c
    have h1 : c ≤ cvStep c e := by
      cases e
      · exact Nat.le_succ c
      · exact le_refl c
    exact le_trans h1 (ih (cvStep c e))

/-- Running `n` signal events adds `n` to the counter. -/
lemma cvRun_replicate (n : Nat) :
    ∀ c, cvRun c (List.replicate n CvEvent.signal) = c + n := by
  induction n with
  | zero => intro c; rfl
  | succ n ih =>
    intro c
    show cvRun (c + 1) (List.replicate n CvEvent.signal) = c + (n + 1)
    rw [ih (c + 1)]
    omega

/-- A Done Operation is unchanged by any single event. -/
lemma opStep_done (r : OpResult) (e : OpEvent) :
    opStep (.done r) e = .done r := by
  cases e <;> rfl

/-- A Done Operation is unchanged by any event sequence. -/
lemma opRun_done (r : OpResult) (es : List OpEvent) :
    opRun (.done r) es = .done r := by
  induction es with
  | nil => rfl
  | cons e es ih =>
    show opRun (opStep (.done r) e) es = .done r
    rw [opStep_done]
    exact ih

/-- No Done transition ever starts from a Done state. -/
lemma doneTransitions_done (r : OpResult) (es : List OpEvent) :
    doneTransitions (.done r) es = 0 := by
  induction es with
  | nil => rfl
  | cons e es ih => simp [doneTransitions, opStep_done, OpState.isDone, ih]

/-- At most one Done transition happens along any event sequence. -/
lemma doneTransitions_le_one (es : List OpEvent) :
    ∀ s, doneTransitions s es ≤ 1 := by
  induction es with
  | nil => intro s; simp [doneTransitions]
  | cons e es ih =>
    intro s
    show (if !s.isDone && (opStep s e).isDone then 1 else 0) +
        doneTransitions (opStep s e) es ≤ 1
    by_cases hd : (!s.isDone && (opStep s e).isDone) = true
    · have h2 : (opStep s e).isDone = true := (Bool.and_eq_true _ _ |>.mp hd).2
      obtain ⟨r, hr⟩ : ∃ r, opStep s e = .done r := by
        cases hst : opStep s e with
        | done r => exact ⟨r, rfl⟩
        | created => rw [hst] at h2; simp [OpState.isDone] at h2
        | pending => rw [hst] at h2; simp [OpState.isDone] at h2
      rw [if_pos hd, hr, doneTransitions_done]
    · rw [if_neg hd]
      simpa using ih (opStep s e)

/-- A terminated bridge thread performs no deliveries. -/
lemma bridgeDeliveries_terminated (obs : List Nat) :
    bridgeDeliveries .terminated obs = 0 := by
  induction obs with
  | nil => rfl
  | cons c cs ih => simp [bridgeDeliveries, bridgeStep, ih]

/-- A bridge thread performs at most one delivery over any observations. -/
lemma bridgeDeliveries_le_one (obs : List Nat) :
    ∀ b, bridgeDeliveries b obs ≤ 1 := by
  induction obs with
  | nil => intro b; simp [bridgeDeliveries]
  | cons c cs ih =>
    intro b
    cases b with
    | terminated => simp [bridgeDeliveries_terminated]
    | waiting s =>
      by_cases h : s < c
      · simp [bridgeDeliveries, bridgeStep, h, bridgeDeliveries_terminated]
      · simp [bridgeDeliveries, bridgeStep, h]
        exact ih (.waiting s)

/-- A waiting bridge thread whose target fires at least once delivers
exactly once. -/
lemma bridge_fire (s : Nat) :
    ∀ obs : List Nat, (∃ c ∈ obs, s < c) →
      bridgeDeliveries (.waiting s) obs = 1 := by
  intro obs
  induction obs with
  | nil =>
    intro h
    obtain ⟨c, hc, _⟩ := h
    exact absurd hc (List.not_mem_nil c)
  | cons c cs ih =>
    intro h
    by_cases hlt : s < c
    · simp [bridgeDeliveries, bridgeStep, hlt, bridgeDeliveries_terminated]
    · have hex : ∃ d ∈ cs, s < d := by
        obtain ⟨d, hd, hsd⟩ := h
        rcases List.mem_cons.mp hd with rfl | hmem
        · exact absurd hsd hlt
        · exact ⟨d, hmem, hsd⟩
      simp [bridgeDeliveries, bridgeStep, hlt]
      exact ih hex

/-- Releasing a concatenation pops the first batch, then the second. -/
lemma releaseStack_append (a : List String) :
    ∀ b s, releaseStack (a ++ b) s = (releaseStack a s).bind (releaseStack b) := by
  induction a with
  | nil => intro b s; rfl
  | cons r rs ih =>
    intro b s
    cases s with
    | nil => rfl
    | cons o os =>
      show (if r = o then releaseStack (rs ++ b) os else none) =
        (if r = o then releaseStack rs os else none).bind (releaseStack b)
      by_cases h : r = o
      · rw [if_pos h, if_pos h]
        exact ih b os
      · rw [if_neg h, if_neg h]
        rfl

/-- Pushing a list of objects and then popping them in reverse order
restores the original stack. -/
lemma releaseStack_reverse_foldl (l : List String) :
    ∀ base, releaseStack l.reverse (l.foldl (fun acc x => x :: acc) base) =
      some base := by
  induction l with
  | nil => intro base; rfl
  | cons x xs ih =>
    intro base
    have h1 : (x :: xs).reverse = xs.reverse ++ [x] := by simp
    have h2 : (x :: xs).foldl (fun acc y => y :: acc) base =
        xs.foldl (fun acc y => y :: acc) (x :: base) := rfl
    rw [h1, h2, releaseStack_append, ih (x :: base)]
    show (if x = x then releaseStack [] base else none) = some base
    rw [if_pos rfl]
    rfl

/-! Claim theorems. -/

/-- C1: the CompletionSignal counter never decreases under any sequence of
signal and wait events, a wait blocks exactly when the counter is
unchanged from the value it sampled at entry, and after any positive
number of signal calls issued before the wait blocks, the wait returns
immediately — no lost wakeup. -/
theorem signal_counter_monotone_no_lost_wakeup
    (c sample n : Nat) (es : List CvEvent) (h : 0 < n) :
    c ≤ cvRun c es ∧
    (∀ s cur : Nat, waitBlocks s cur = true ↔ cur = s) ∧
    waitBlocks sample (cvRun sample (List.replicate n CvEvent.signal)) = false := by
  refine ⟨cvRun_ge es c, ?_, ?_⟩
  · intro s cur
    simp [waitBlocks]
  · rw [cvRun_replicate]
    simp [waitBlocks]
    omega

/-- Witness for C1, at three signals before a wait sampled at 5. -/
theorem signal_counter_monotone_no_lost_wakeup_witness :
    0 ≤ cvRun 0 [CvEvent.signal, CvEvent.wait] ∧
    (∀ s cur : Nat, waitBlocks s cur = true ↔ cur = s) ∧
    waitBlocks 5 (cvRun 5 (List.replicate 3 CvEvent.signal)) = false :=
  signal_counter_monotone_no_lost_wakeup 0 5 3 [CvEvent.signal, CvEvent.wait]
    (by decide)

/-- C2: a stop request followed by the native completion callback yields
exactly one Done transition; once Done, the state never changes again
under any further events; and no event sequence from any state ever
performs more than one Done transition. -/
theorem op_done_once_idempotent (r : OpResult) (es tail : List OpEvent) :
    doneTransitions .pending (OpEvent.stopReq :: OpEvent.complete r :: tail) = 1 ∧
    opRun (.done r) es = .done r ∧
    (∀ (s : OpState) (fs : List OpEvent), doneTransitions s fs ≤ 1) := by
  refine ⟨?_, opRun_done r es, fun s fs => doneTransitions_le_one fs s⟩
  simp [doneTransitions, opStep, OpState.isDone, doneTransitions_done]

/-- C3: the timed wait reports Completed exactly when the counter has
advanced past the sample and TimedOut exactly otherwise; the
interruptible variant adds Interrupted as a further outcome; and the
three outcomes are pairwise distinct, so a timeout is never conflated
with a completion. -/
theorem timed_wait_tristate (s c : Nat) :
    (cvWaitUntil s c = .completed ↔ s < c) ∧
    (cvWaitUntil s c = .timedOut ↔ ¬ s < c) ∧
    cvWaitUntilSafe false s c = cvWaitUntil s c ∧
    cvWaitUntilSafe true s c = .interrupted ∧
    (WaitOutcome.completed ≠ WaitOutcome.timedOut ∧
     WaitOutcome.completed ≠ WaitOutcome.interrupted ∧
     WaitOutcome.timedOut ≠ WaitOutcome.interrupted) := by
  by_cases h : s < c <;> simp [cvWaitUntil, cvWaitUntilSafe, h]

/-- C4: a wait_until whose deadline is already in the past returns
TimedOut at once with the target state exactly as it stood; a timed wait
never writes its target (the state it returns is one it observed, so a
timed-out target is re-waitable); and a Pending Operation left behind by
a timed-out wait is collected successfully once the completion callback
fires. -/
theorem past_deadline_timeout_rewaitable (now deadline : Int)
    (h : deadline ≤ now) (st stAtD : OpState) (r : OpResult) :
    opWaitUntil now deadline st stAtD = (.timedOut, st) ∧
    (∀ (n d : Int) (s1 s2 : OpState),
      (opWaitUntil n d s1 s2).2 = s1 ∨ (opWaitUntil n d s1 s2).2 = s2) ∧
    collect (opRun .pending [OpEvent.complete r]) = some r := by
  refine ⟨by simp [opWaitUntil, h], ?_, rfl⟩
  intro n d s1 s2
  by_cases hd : d ≤ n
  · left
    simp [opWaitUntil, hd]
  · right
    cases s2 <;> simp [opWaitUntil, hd]

/-- Witness for C4, at a deadline one unit in the past. -/
theorem past_deadline_timeout_rewaitable_witness :
    opWaitUntil 0 (-1) OpState.pending OpState.pending =
      (WaitOutcome.timedOut, OpState.pending) ∧
    (∀ (n d : Int) (s1 s2 : OpState),
      (opWaitUntil n d s1 s2).2 = s1 ∨ (opWaitUntil n d s1 s2).2 = s2) ∧
    collect (opRun .pending [OpEvent.complete (OpResult.success 7)]) =
      some (OpResult.success 7) :=
  past_deadline_timeout_rewaitable 0 (-1) (by decide) OpState.pending
    OpState.pending (OpResult.success 7)

/-- C5: collect on an already-Done Operation returns the stored result
immediately, and because a Done Operation never changes again, every
repeated collect returns that same stored result. -/
theorem collect_done_idempotent (r : OpResult) (es : List OpEvent) :
    collect (OpState.done r) = some r ∧
    collect (opRun (OpState.done r) es) = some r := by
  refine ⟨rfl, ?_⟩
  rw [opRun_done]
  rfl

/-- C7: a bridge thread whose target signal fires at least once — however
many times and from however many threads — delivers exactly once; no
bridge thread ever delivers more than once; and a terminated bridge
thread never delivers again (no retries). -/
theorem bridge_exactly_once (s : Nat) (obs : List Nat)
    (h : ∃ c ∈ obs, s < c) :
    bridgeDeliveries (BridgeState.waiting s) obs = 1 ∧
    (∀ (b : BridgeState) (ds : List Nat), bridgeDeliveries b ds ≤ 1) ∧
    (∀ ds : List Nat, bridgeDeliveries BridgeState.terminated ds = 0) :=
  ⟨bridge_fire s obs h, fun b ds => bridgeDeliveries_le_one ds b,
    fun ds => bridgeDeliveries_terminated ds⟩

/-- Witness for C7, on a target observed firing three times. -/
theorem bridge_exactly_once_witness :
    bridgeDeliveries (BridgeState.waiting 0) [1, 2, 3] = 1 ∧
    (∀ (b : BridgeState) (ds : List Nat), bridgeDeliveries b ds ≤ 1) ∧
    (∀ ds : List Nat, bridgeDeliveries BridgeState.terminated ds = 0) :=
  bridge_exactly_once 0 [1, 2, 3] (by decide)

/-- C6 counterexample: the claim that signal_wait and op_collect are each
registered as a single routine taking an extra interruptible boolean
parameter fails on the table: rnng_cv_wait and rnng_aio_collect are both
registered with arity 1, and no arity-2 entry exists for either name. -/
theorem surface_bool_param_refuted :
    lookupArity callMethods "rnng_cv_wait" = some 1 ∧
    hasEntry callMethods "rnng_cv_wait" 2 = false ∧
    lookupArity callMethods "rnng_aio_collect" = some 1 ∧
    hasEntry callMethods "rnng_aio_collect" 2 = false := by decide

/-- C6 (amended): every operation of the boundary surface is exposed as a
registered native routine, but the interruptible flag of signal_wait,
signal_wait_until and op_collect is realised by registering a separate
interruptible variant of the same arity (rnng_cv_wait_safe,
rnng_cv_until_safe, rnng_aio_collect_safe) rather than by a boolean
parameter. -/
theorem surface_registered_with_safe_variants :
    hasEntry callMethods "rnng_cv_alloc" 0 = true ∧
    hasEntry callMethods "rnng_cv_signal" 1 = true ∧
    hasEntry callMethods "rnng_cv_wait" 1 = true ∧
    hasEntry callMethods "rnng_cv_wait_safe" 1 = true ∧
    hasEntry callMethods "rnng_cv_until" 2 = true ∧
    hasEntry callMethods "rnng_cv_until_safe" 2 = true ∧
    hasEntry callMethods "rnng_cv_value" 1 = true ∧
    hasEntry callMethods "rnng_cv_reset" 1 = true ∧
    hasEntry callMethods "rnng_aio_collect" 1 = true ∧
    hasEntry callMethods "rnng_aio_collect_safe" 1 = true ∧
    hasEntry callMethods "rnng_aio_call" 1 = true ∧
    hasEntry callMethods "rnng_aio_stop" 1 = true ∧
    hasEntry callMethods "rnng_signal_thread_create" 2 = true ∧
    hasEntry callMethods "rnng_wait_thread_create" 1 = true ∧
    hasEntry callMethods "rnng_pipe_notify" 5 = true := by decide

/-- C8: the source file defines R_init_nanonext twice with different
registration tables; the first registers only rnng_http_echo_server, and
that name appears nowhere in the second definition's callMethods table,
so the two registered routine sets are disjoint. -/
theorem double_init_disjoint :
    R_init_nanonext_tables.length = 2 ∧
    CallEntries.map CallEntry.regName = ["rnng_http_echo_server"] ∧
    CallEntries ≠ callMethods ∧
    (∀ n ∈ CallEntries.map CallEntry.regName,
      n ∉ callMethods.map CallEntry.regName) := by decide

/-- C9: in the callMethods table, every entry before the terminating null
entry registers a name string equal to the name of the C function it
points to, and the registration names appear in strictly increasing
alphabetical (strcmp) order. -/
theorem callMethods_names_match_sorted :
    callMethods.all (fun e => e.regName = e.fnName) = true ∧
    strictlySorted (callMethods.map CallEntry.regName) = true := by decide

/-- C10: ReleaseObjects releases exactly the ten objects PreserveObjects
preserves, in the exact reverse of the preservation order, so preserving
on load and releasing on unload restores any prior preserved stack —
the round trip leaves the process-wide preserved objects unchanged. -/
theorem preserve_release_roundtrip :
    releaseOrder = preserveOrder.reverse ∧
    preserveOrder.length = 10 ∧
    releaseOrder.length = 10 ∧
    (∀ base : List String,
      releaseStack releaseOrder (preserveStack base) = some base) := by
  refine ⟨by decide, by decide, by decide, ?_⟩
  intro base
  have h : releaseOrder = preserveOrder.reverse := by decide
  rw [h]
  exact releaseStack_reverse_foldl preserveOrder base

end Nanonext
